import Mathlib

/-!
Shallow embedding of the japan-law-crawler repository.

The repository holds two variants of one download script:
  A. src/scripts /download_laws.py                       (keyword endpoint, with validity filter)
  B. src/japan-law-tax-json-download/scripts/download_laws.py  (laws endpoint, no validity filter)

Pure helpers (sanitize_filename, build_url, extract_law_info, iter_laws,
fetch_law_data) are identical in both variants and are embedded once.
The main loops differ (variant A filters on revision_info, variant B does
not) and are embedded separately as processLaws / processLawsV2.

The HTTP transport is a parameter: a function from a URL to either a
payload or a FetchErr, mirroring the fetch_json + urllib error model.
-/

/-- A JSON scalar as it matters to the script: the only coercion the code
performs is the Python str() call on revision_info.get("amendment_type"),
which turns a JSON number 8 into the string "8". -/
inductive JVal where
  | jstr (s : String)
  | jnum (n : Int)
deriving DecidableEq, Repr

/-- Python str() on the modelled JSON scalars. -/
def pyStr : JVal → String
  | .jstr s => s
  | .jnum n => toString n

/-- Python truthiness of an optional string: None and the empty string are
falsy, every other string is truthy. -/
def truthyOpt : Option String → Bool
  | none => false
  | some s => !(s == "")

/-- Python expression a or b on two optional strings, as in
law_info.get("law_id") or law_info.get("lawId"): the first operand when it
is truthy, the second otherwise. -/
def pyOrOpt (a b : Option String) : Option String :=
  if truthyOpt a then a else b

/-- Python expression a or b where the second operand is a plain string, as
in law_num or law_id inside the save path of main. -/
def pyOrStr (a : Option String) (b : String) : String :=
  if truthyOpt a then a.getD "" else b

/-! ## sanitize_filename -/

/-- Whitespace as matched by the regular expression backslash-s in the
script. The model covers the six ASCII whitespace characters; the Unicode
additions of the re module fall into the disallowed class below anyway and
do not change the properties proved here. -/
def isSpaceChar (c : Char) : Bool :=
  c == ' ' || c == '\t' || c == '\n' || c == '\r' || c == '\x0b' || c == '\x0c'

/-- The character class kept by sanitize_filename: 0-9 A-Z a-z underscore
hyphen parentheses square brackets and the two CJK lenticular brackets,
exactly the class in the second re.sub of the source. -/
def isAllowedChar (c : Char) : Bool :=
  c.isAlphanum || c == '_' || c == '-' || c == '(' || c == ')' ||
    c == '[' || c == ']' || c == '【' || c == '】'

/-- Characters outside the kept class, the class the second re.sub
replaces. -/
def notAllowedChar (c : Char) : Bool := !(isAllowedChar c)

/-- Replace every maximal run of characters satisfying p by a single
underscore, as re.sub(pattern+, "_", value) does. The Bool argument records
whether the previous character was inside a run. -/
def squashFrom (p : Char → Bool) : Bool → List Char → List Char
  | _, [] => []
  | inRun, c :: cs =>
    if p c then
      if inRun then squashFrom p true cs
      else '_' :: squashFrom p true cs
    else c :: squashFrom p false cs

/-- re.sub of a one-or-more character class by a single underscore. -/
def squashRuns (p : Char → Bool) (l : List Char) : List Char :=
  squashFrom p false l

/-- Python strip: drop the characters satisfying p from both ends. -/
def pyStrip (p : Char → Bool) (l : List Char) : List Char :=
  (((l.dropWhile p).reverse.dropWhile p)).reverse

/-- The sanitize_filename function of both scripts, on character lists:
strip whitespace, replace whitespace runs by underscore, replace runs of
disallowed characters by underscore, strip underscores. -/
def sanitizeList (l : List Char) : List Char :=
  pyStrip (fun c => c == '_')
    (squashRuns notAllowedChar (squashRuns isSpaceChar (pyStrip isSpaceChar l)))

/-- sanitize_filename from both scripts, including the final
value or "unknown" fallback for an empty result. -/
def sanitize_filename (s : String) : String :=
  let r := sanitizeList s.data
  if r.isEmpty then "unknown" else String.mk r

/-! ## build_url -/

/-- Python str.rstrip restricted to one character class. -/
def rstripChar (p : Char → Bool) (s : String) : String :=
  String.mk ((s.data.reverse.dropWhile p).reverse)

/-- Python str.lstrip restricted to one character class. -/
def lstripChar (p : Char → Bool) (s : String) : String :=
  String.mk (s.data.dropWhile p)

/-- urllib.parse.urlencode on an association list. Percent escaping is
omitted: every parameter value the scripts pass consists of unreserved
characters, for which urlencode is the identity on each key=value pair. -/
def urlencode (params : List (String × String)) : String :=
  String.intercalate "&" (params.map (fun kv => kv.1 ++ "=" ++ kv.2))

/-- build_url from both scripts. -/
def build_url (base_url path : String) (params : List (String × String)) : String :=
  rstripChar (fun c => c == '/') base_url ++ "/" ++
    lstripChar (fun c => c == '/') path ++ "?" ++ urlencode params

/-! ## Transport and payload model -/

/-- Failure modes of the transport: an HTTPError with a status code, a
timeout (URLError), or malformed JSON (JSONDecodeError). Only the HTTPError
case is caught by fetch_law_data; the other two always propagate. -/
inductive FetchErr where
  | http (code : Nat)
  | timeout
  | malformed
deriving DecidableEq, Repr

deriving instance DecidableEq for Except

/-- revision_info as consulted by variant A of main: the two fields it
reads, each possibly absent. -/
structure RevisionInfo where
  repeal_status : Option String
  amendment_type : Option JVal
deriving DecidableEq, Repr

/-- The body of a law_data response: the script only looks at the
revision_info key, possibly absent. -/
structure LawDataBody where
  revision_info : Option RevisionInfo
deriving DecidableEq, Repr

/-- A detail payload: law_payload.get("law_data_response", law_payload)
picks the wrapped body when the wrapper key is present and the payload
itself otherwise. -/
structure DetailPayload where
  law_data_response : Option LawDataBody
  top : LawDataBody
deriving DecidableEq, Repr

/-- data_root = law_payload.get("law_data_response", law_payload). -/
def dataRoot (p : DetailPayload) : LawDataBody :=
  p.law_data_response.getD p.top

/-- revision_info = data_root.get("revision_info", {}). -/
def revInfo (p : DetailPayload) : RevisionInfo :=
  (dataRoot p).revision_info.getD ⟨none, none⟩

/-- repeal_status = revision_info.get("repeal_status", ""). -/
def repealStatus (ri : RevisionInfo) : String :=
  ri.repeal_status.getD ""

/-- amendment_type = str(revision_info.get("amendment_type", "")). -/
def amendmentType (ri : RevisionInfo) : String :=
  match ri.amendment_type with
  | none => ""
  | some v => pyStr v

/-- The rejection list of variant A: repeal_status values treated as
inactive. These are the raw API strings; the spec names them Repealed,
Expired and LossOfEffect. -/
def rejectStatuses : List String := ["Repeal", "Expire", "LossOfEffectiveness"]

/-- The skip condition of variant A of main:
repeal_status in rejectStatuses or amendment_type == "8". -/
def isInactive (ri : RevisionInfo) : Bool :=
  rejectStatuses.contains (repealStatus ri) || amendmentType ri == "8"

/-- The admission decision of variant A of main, lines 126-135: a record
survives the filter iff its revision info is not inactive. The configured
target category (the category-cd argument) is not consulted at this point;
the source uses it only to build the listing URL, so it is an unused
parameter here. -/
def passesFilter (ri : RevisionInfo) (targetCategory : String) : Bool :=
  !(isInactive ri)

/-- The admission decision as the spec section 4.3 words it, for comparison
with passesFilter: normalize both categories to three-digit zero-padded
form, compare them, and reject the explicit status set and amendment kind
"8". This definition follows the words of the spec, not the source. -/
structure SpecRecord where
  effectiveCategory : String
  effectStatus : String
  amendmentKind : String
deriving DecidableEq, Repr

/-- Zero padding to three digits as described by the spec. -/
def zeroPad3 (s : String) : String :=
  if s.length ≥ 3 then s else String.mk (List.replicate (3 - s.length) '0') ++ s

/-- The category-comparing admission decision described by the spec. -/
def specPassesFilter (r : SpecRecord) (targetCategory : String) : Bool :=
  (zeroPad3 r.effectiveCategory == zeroPad3 targetCategory) &&
    !(rejectStatuses.contains r.effectStatus) && !(r.amendmentKind == "8")

/-! ## fetch_law_data -/

/-- The fixed query parameters of the detail request. -/
def detailParams : List (String × String) :=
  [("law_full_text_format", "json"), ("response_format", "json"),
   ("extraction_target", "all")]

/-- The URL of a detail request for one identifier. -/
def detailUrl (base_url ident : String) : String :=
  build_url base_url ("law_data/" ++ ident) detailParams

/-- fetch_law_data from both scripts, instrumented with the list of URLs it
requests, in order: try law_id; on an HTTPError whose code is 404 with a
truthy law_num, issue exactly one fallback request with law_num and return
its outcome; propagate every other failure at once. -/
def fetch_law_data (fetch : String → Except FetchErr DetailPayload)
    (base_url law_id : String) (law_num : Option String) :
    List String × Except FetchErr DetailPayload :=
  let law_url := detailUrl base_url law_id
  match fetch law_url with
  | .ok p => ([law_url], .ok p)
  | .error (.http code) =>
    if code != 404 || !(truthyOpt law_num) then ([law_url], .error (.http code))
    else
      let fallback_url := detailUrl base_url (law_num.getD "")
      ([law_url, fallback_url], fetch fallback_url)
  | .error e => ([law_url], .error e)

/-! ## Catalog entries and the listing request -/

/-- One element of law_info_list, with the two key-naming conventions the
scripts probe: snake-case first, camel-case fallback. Absent keys are none;
dict.get returns None for them. -/
structure CatalogItem where
  law_id : Option String
  lawId : Option String
  law_num : Option String
  lawNum : Option String
  law_name : Option String
  lawName : Option String
deriving DecidableEq, Repr

/-- extract_law_info from both scripts: for each field, the snake-case
value if truthy, else the camel-case value. -/
def extract_law_info (e : CatalogItem) :
    Option String × Option String × Option String :=
  (pyOrOpt e.law_id e.lawId, pyOrOpt e.law_num e.lawNum,
    pyOrOpt e.law_name e.lawName)

/-- The body of a listing response: the law_info_list key, possibly
absent. -/
structure ListBody where
  law_info_list : Option (List CatalogItem)
deriving DecidableEq, Repr

/-- A listing payload: variant A unwraps an optional keyword_response
wrapper, list_payload.get("keyword_response", list_payload). -/
structure ListPayload where
  keyword_response : Option ListBody
  top : ListBody
deriving DecidableEq, Repr

/-- The query parameters of the listing request of variant A. -/
def listParams (category_cd : String) : List (String × String) :=
  [("category_cd", category_cd), ("response_format", "json")]

/-- The listing URL of variant A: the keyword endpoint with category_cd. -/
def listUrl (base_url category_cd : String) : String :=
  build_url base_url "keyword" (listParams category_cd)

/-- The catalog acquisition of variant A of main, instrumented with the
list of URLs requested: one fetch of the keyword endpoint, unwrap the
optional keyword_response wrapper, read law_info_list with default [].
There is no loop, no offset parameter and no page size; the whole catalog
comes from this single request. -/
def listRequest (fetch : String → Except FetchErr ListPayload)
    (base_url category_cd : String) :
    List String × Except FetchErr (List CatalogItem) :=
  let url := listUrl base_url category_cd
  ( [url],
    match fetch url with
    | .error e => .error e
    | .ok p => .ok (((p.keyword_response.getD p.top).law_info_list).getD []) )

/-! ## iter_laws and the two main loops -/

/-- iter_laws from both scripts: yield an item, increment the counter, and
break once the counter reaches the limit. The counter starts at 0 and the
check happens after the yield, so even a non-positive limit yields one item
from a nonempty list, and the counter counts every yielded item whether or
not it is later skipped, rejected or failed. -/
def iter_laws (limit : Option Int) : List CatalogItem → Int → List CatalogItem
  | [], _ => []
  | x :: xs, count =>
    x :: match limit with
      | some n => if count + 1 ≥ n then [] else iter_laws limit xs (count + 1)
      | none => iter_laws limit xs (count + 1)

/-- The observable events of one pass of the download loop, in program
order: skipping an entry without identifier, a failed detail fetch, a
record rejected by the validity filter, a saved file, and a rate-limit
sleep. -/
inductive Ev where
  | skipNoId
  | failed
  | rejected
  | saved (filename : String)
  | slept
deriving DecidableEq, Repr

/-- The outcome of a run of the download loop: the event trace in order,
the files written with their payloads, the active_count counter, and every
detail URL requested. -/
structure RunResult where
  trace : List Ev
  written : List (String × DetailPayload)
  active_count : Nat
  fetched : List String
deriving DecidableEq, Repr

/-- Concatenation of run outcomes of consecutive loop iterations. -/
def RunResult.append (a b : RunResult) : RunResult :=
  ⟨a.trace ++ b.trace, a.written ++ b.written,
    a.active_count + b.active_count, a.fetched ++ b.fetched⟩

/-- One iteration of the download loop of variant A of main: skip entries
without a truthy identifier (continue, skipping the sleep), fetch the
detail record through fetch_law_data, on any failure continue (skipping the
sleep), apply the validity filter and on rejection continue (skipping the
sleep), otherwise derive the filename, write the file, increment
active_count and sleep. -/
def stepEntry (fetch : String → Except FetchErr DetailPayload)
    (base_url : String) (e : CatalogItem) : RunResult :=
  let law_id_opt := (extract_law_info e).1
  let law_num := (extract_law_info e).2.1
  let law_name := (extract_law_info e).2.2
  if !(truthyOpt law_id_opt) then ⟨[.skipNoId], [], 0, []⟩
  else
    let law_id := law_id_opt.getD ""
    let fr := fetch_law_data fetch base_url law_id law_num
    match fr.2 with
    | .error _ => ⟨[.failed], [], 0, fr.1⟩
    | .ok payload =>
      if isInactive (revInfo payload) then ⟨[.rejected], [], 0, fr.1⟩
      else
        let fname := sanitize_filename (pyOrStr law_num law_id) ++ "_" ++
          sanitize_filename (pyOrStr law_name law_id) ++ ".json"
        ⟨[.saved fname, .slept], [(fname, payload)], 1, fr.1⟩

/-- The download loop of variant A of main over an already-limited entry
list. Iterations are independent up to the appended counters and traces, so
the loop is the fold of stepEntry. -/
def processLaws (fetch : String → Except FetchErr DetailPayload)
    (base_url : String) : List CatalogItem → RunResult
  | [] => ⟨[], [], 0, []⟩
  | e :: rest => (stepEntry fetch base_url e).append (processLaws fetch base_url rest)

/-- The main loop of variant A: iter_laws applied to the catalog with the
limit argument, then the per-entry loop. -/
def runMain (fetch : String → Except FetchErr DetailPayload)
    (base_url : String) (entries : List CatalogItem) (limit : Option Int) : RunResult :=
  processLaws fetch base_url (iter_laws limit entries 0)

/-- One iteration of the download loop of variant B of main: skip entries
without a truthy identifier, fetch through the same fetch_law_data, on
failure continue (skipping the sleep); every successfully fetched record is
written unconditionally, with no validity filter, then the loop sleeps.
Variant B keeps no active_count; the counter slot counts saved files. -/
def stepEntryV2 (fetch : String → Except FetchErr DetailPayload)
    (base_url : String) (e : CatalogItem) : RunResult :=
  let law_id_opt := (extract_law_info e).1
  let law_num := (extract_law_info e).2.1
  let law_name := (extract_law_info e).2.2
  if !(truthyOpt law_id_opt) then ⟨[.skipNoId], [], 0, []⟩
  else
    let law_id := law_id_opt.getD ""
    let fr := fetch_law_data fetch base_url law_id law_num
    match fr.2 with
    | .error _ => ⟨[.failed], [], 0, fr.1⟩
    | .ok payload =>
      let fname := sanitize_filename (pyOrStr law_num law_id) ++ "_" ++
        sanitize_filename (pyOrStr law_name law_id) ++ ".json"
      ⟨[.saved fname, .slept], [(fname, payload)], 1, fr.1⟩

/-- The download loop of variant B of main. -/
def processLawsV2 (fetch : String → Except FetchErr DetailPayload)
    (base_url : String) : List CatalogItem → RunResult
  | [] => ⟨[], [], 0, []⟩
  | e :: rest => (stepEntryV2 fetch base_url e).append (processLawsV2 fetch base_url rest)

/-- The main loop of variant B: iter_laws, then the per-entry loop. -/
def runMainV2 (fetch : String → Except FetchErr DetailPayload)
    (base_url : String) (entries : List CatalogItem) (limit : Option Int) : RunResult :=
  processLawsV2 fetch base_url (iter_laws limit entries 0)

/-! ## Fixtures for witnesses and counterexamples -/

/-- An is-404 test on the transport error, matching the exc.code check. -/
def is404 : FetchErr → Bool
  | .http code => code == 404
  | _ => false

/-- A detail payload with no wrapper and an empty revision_info: absent
status and absent amendment kind, treated as active by the filter. -/
def activePayload : DetailPayload := ⟨none, ⟨some ⟨none, none⟩⟩⟩

/-- A wrapped detail payload whose revision_info carries
repeal_status Repeal: a record in the rejection set. -/
def repealedPayload : DetailPayload := ⟨some ⟨some ⟨some "Repeal", none⟩⟩, ⟨none⟩⟩

/-- A catalog entry whose detail record is repealed under fetchCX. -/
def entryR : CatalogItem := ⟨some "R1", none, some "NumR", none, some "NameR", none⟩

/-- A catalog entry whose detail record is active under fetchCX. -/
def entryG : CatalogItem := ⟨some "G1", none, some "NumG", none, some "NameG", none⟩

/-- Admissible catalog entries for the scenario with five entries. -/
def entryG2 : CatalogItem := ⟨some "G2", none, some "NumG2", none, some "NameG2", none⟩

def entryG3 : CatalogItem := ⟨some "G3", none, some "NumG3", none, some "NameG3", none⟩

def entryG4 : CatalogItem := ⟨some "G4", none, some "NumG4", none, some "NameG4", none⟩

def entryG5 : CatalogItem := ⟨some "G5", none, some "NumG5", none, some "NameG5", none⟩

/-- A transport oracle: the detail record of R1 is repealed, every other
identifier resolves to an active record. -/
def fetchCX : String → Except FetchErr DetailPayload := fun u =>
  if u = detailUrl "b" "R1" then .ok repealedPayload else .ok activePayload

/-- A transport oracle on which every identifier resolves to an active
record. -/
def fetchActive : String → Except FetchErr DetailPayload := fun _ => .ok activePayload

/-- A catalog entry with no identifier under either naming convention:
law_id is absent and lawId is the empty string, both falsy. -/
def entryNoId : CatalogItem := ⟨none, some "", some "NumX", none, some "NameX", none⟩

/-- The five-entry all-admissible catalog of the item-cap scenario. -/
def scenarioD : List CatalogItem := [entryG, entryG2, entryG3, entryG4, entryG5]

/-- A four-entry catalog payload for the pagination claim. -/
def catalogEntries4 : List CatalogItem := [entryG, entryG2, entryG3, entryG4]

/-- A listing oracle that answers every request with the four-entry
catalog, wrapped under keyword_response as the keyword endpoint does. -/
def catalogFetch4 : String → Except FetchErr ListPayload := fun _ =>
  .ok ⟨some ⟨some catalogEntries4⟩, ⟨none⟩⟩

/-- A detail oracle that always succeeds with an active record. -/
def fetchOkW : String → Except FetchErr DetailPayload := fun _ => .ok activePayload

/-- A detail oracle giving 404 on the primary identifier X and an active
record elsewhere, for the fallback witness. -/
def fetch404W : String → Except FetchErr DetailPayload := fun u =>
  if u = detailUrl "b" "X" then .error (.http 404) else .ok activePayload

/-- A detail oracle that always fails with a 500 error. -/
def fetch500W : String → Except FetchErr DetailPayload := fun _ => .error (.http 500)

/-! ## Claims about the validity filter -/

/-- C5: for every detail record whose effect status is Repeal, Expire or
LossOfEffectiveness (the statuses the spec calls Repealed, Expired and
LossOfEffect), the admission decision of the filtering script returns
false, for every configured target category. -/
theorem C5_rejection_set_rejected (ri : RevisionInfo) (target : String)
    (h : repealStatus ri ∈ rejectStatuses) : passesFilter ri target = false := by
  simp only [rejectStatuses, List.mem_cons, List.not_mem_nil, or_false] at h
  rcases h with h | h | h <;>
    simp [passesFilter, isInactive, rejectStatuses, h]

/-- Witness for C5: a record with repeal_status Expire is rejected under
target category 13. -/
theorem C5_witness :
    repealStatus ⟨some "Expire", none⟩ ∈ rejectStatuses ∧
      passesFilter ⟨some "Expire", none⟩ "13" = false :=
  ⟨by decide, C5_rejection_set_rejected ⟨some "Expire", none⟩ "13" (by decide)⟩

/-- C6: for every detail record whose amendment kind is the string "8"
after the str() coercion, the admission decision returns false, whatever
the effect status, in particular when it is absent. -/
theorem C6_amendment_kind_8_rejected (ri : RevisionInfo) (target : String)
    (h : amendmentType ri = "8") : passesFilter ri target = false := by
  simp [passesFilter, isInactive, h]

/-- Witness for C6: a record with absent repeal_status and the JSON number
8 as amendment_type is rejected under target category 013. -/
theorem C6_witness :
    amendmentType ⟨none, some (.jnum 8)⟩ = "8" ∧
      passesFilter ⟨none, some (.jnum 8)⟩ "013" = false :=
  ⟨by decide, C6_amendment_kind_8_rejected ⟨none, some (.jnum 8)⟩ "013" (by decide)⟩

/-- C2 counterexample: the admission decision of the source performs no
category comparison at all. A record whose payload carries effective
category 999 and no inactive marker is admitted under target 013, while the
zero-padded category comparison the claim describes (specPassesFilter,
written out from the words of the spec) rejects it. The code-side decision
is also insensitive to any target value, 999 included, which no
normalize-then-compare decision can be. -/
theorem C2_counterexample :
    passesFilter ⟨none, none⟩ "013" = true ∧
      passesFilter ⟨none, none⟩ "999" = true ∧
      specPassesFilter ⟨"999", "", ""⟩ "013" = false := by
  decide

/-- C2 amended: the admission decision ignores the target category
entirely (the category narrowing happens upstream through the category_cd
query parameter of the listing request), so admitting under target 13 and
under target 013 coincide trivially, as does admitting under any pair of
targets. -/
theorem C2_target_ignored :
    ∀ (ri : RevisionInfo) (c1 c2 : String), passesFilter ri c1 = passesFilter ri c2 := by
  intro ri c1 c2
  rfl

/-! ## Claims about the catalog listing -/

/-- C3 amended: the catalog acquisition issues exactly one list request,
to the keyword URL, with no offset parameter, for every transport oracle
and configuration; the entire catalog comes from that single response. -/
theorem C3_single_list_request :
    ∀ (fetch : String → Except FetchErr ListPayload) (base_url category_cd : String),
      (listRequest fetch base_url category_cd).1 = [listUrl base_url category_cd] := by
  intro fetch base_url category_cd
  rfl

/-- C3 counterexample: presented with a response of four entries, the code
makes exactly one list request and stops, although a four-entry page is
neither empty nor shorter than a page size of 2, so the claimed
termination condition (terminate exactly on an empty or short page) and
the claimed offset advance do not describe the code: there is no second
request and no offset at all. -/
theorem C3_counterexample :
    (listRequest catalogFetch4 "b" "13").1.length = 1 ∧
      (listRequest catalogFetch4 "b" "13").2 = .ok catalogEntries4 ∧
      catalogEntries4.length = 4 ∧
      ¬(catalogEntries4.length = 0 ∨ catalogEntries4.length < 2) := by
  refine ⟨by decide, by decide, by decide, ?_⟩
  decide

/-! ## Claim about the resolver fallback -/

/-- C4: the resolver requests the primary identifier first and returns a
successful payload with no further request; exactly when that request
fails with an HTTP 404 and the secondary identifier is truthy, exactly one
fallback request is issued with the secondary identifier and its outcome
is returned; every other failure, including a 404 with no truthy secondary
identifier, propagates at once with no fallback request. -/
theorem C4_resolver_fallback (fetch : String → Except FetchErr DetailPayload)
    (base_url law_id : String) (law_num : Option String) :
    (∀ p, fetch (detailUrl base_url law_id) = .ok p →
      fetch_law_data fetch base_url law_id law_num =
        ([detailUrl base_url law_id], .ok p)) ∧
    (∀ code, fetch (detailUrl base_url law_id) = .error (.http code) →
      code = 404 → truthyOpt law_num = true →
      fetch_law_data fetch base_url law_id law_num =
        ([detailUrl base_url law_id, detailUrl base_url (law_num.getD "")],
          fetch (detailUrl base_url (law_num.getD "")))) ∧
    (∀ e, fetch (detailUrl base_url law_id) = .error e →
      is404 e = false ∨ truthyOpt law_num = false →
      fetch_law_data fetch base_url law_id law_num =
        ([detailUrl base_url law_id], .error e)) := by
  refine ⟨?_, ?_, ?_⟩
  · intro p h
    simp [fetch_law_data, h]
  · intro code h hc ht
    subst hc
    simp [fetch_law_data, h, ht]
  · intro e h hcase
    match e with
    | .http code =>
      have hcond : (code != 404 || !(truthyOpt law_num)) = true := by
        rcases hcase with h1 | h1
        · simp only [is404, beq_eq_false_iff_ne, ne_eq] at h1
          simp [h1]
        · simp [h1]
      simp [fetch_law_data, h, hcond]
    | .timeout => simp [fetch_law_data, h]
    | .malformed => simp [fetch_law_data, h]

/-- Witness for C4, one concrete run per case: a successful primary fetch
returns with one request; a 404 on the primary identifier X with truthy
secondary Y makes exactly the two requests and returns the fallback
payload; a 500 propagates with a single request. -/
theorem C4_witness :
    fetch_law_data fetchOkW "b" "X" (some "Y") =
        ([detailUrl "b" "X"], .ok activePayload) ∧
      fetch_law_data fetch404W "b" "X" (some "Y") =
        ([detailUrl "b" "X", detailUrl "b" "Y"], .ok activePayload) ∧
      fetch_law_data fetch500W "b" "X" (some "Y") =
        ([detailUrl "b" "X"], .error (.http 500)) := by
  refine ⟨?_, ?_, ?_⟩
  · exact (C4_resolver_fallback fetchOkW "b" "X" (some "Y")).1 activePayload (by decide)
  · have h := (C4_resolver_fallback fetch404W "b" "X" (some "Y")).2.1 404
      (by decide) rfl (by decide)
    rw [h]
    decide
  · exact (C4_resolver_fallback fetch500W "b" "X" (some "Y")).2.2 (.http 500)
      (by decide) (by decide)

/-! ## Driver lemmas -/

/-- Every pair recorded as written by one loop iteration of variant A has
a revision info that passes the validity filter: the write sits under the
negative branch of the skip condition. -/
lemma stepEntry_written_passes (fetch : String → Except FetchErr DetailPayload)
    (base_url : String) (e : CatalogItem) (pr : String × DetailPayload)
    (h : pr ∈ (stepEntry fetch base_url e).written) :
    isInactive (revInfo pr.2) = false := by
  simp only [stepEntry] at h
  split at h
  · simp at h
  · split at h
    · simp at h
    · split at h
      · simp at h
      · rename_i payload heq hinact
        simp only [List.mem_singleton] at h
        subst h
        simpa using hinact

/-- In one loop iteration of variant A, the number of sleep events equals
the active_count increment: the sleep line runs exactly on the save
path. -/
lemma stepEntry_slept_count (fetch : String → Except FetchErr DetailPayload)
    (base_url : String) (e : CatalogItem) :
    (stepEntry fetch base_url e).trace.count Ev.slept =
      (stepEntry fetch base_url e).active_count := by
  simp only [stepEntry]
  split
  · rfl
  · split
    · rfl
    · split
      · rfl
      · rfl

/-- One loop iteration of variant A accepts at most one record. -/
lemma stepEntry_active_le_one (fetch : String → Except FetchErr DetailPayload)
    (base_url : String) (e : CatalogItem) :
    (stepEntry fetch base_url e).active_count ≤ 1 := by
  simp only [stepEntry]
  split
  · exact Nat.zero_le 1
  · split
    · exact Nat.zero_le 1
    · split
      · exact Nat.zero_le 1
      · exact Nat.le_refl 1

/-- Sleep events equal accepted records over any entry list, variant A. -/
lemma processLaws_slept_eq_active (fetch : String → Except FetchErr DetailPayload)
    (base_url : String) : ∀ l : List CatalogItem,
    (processLaws fetch base_url l).trace.count Ev.slept =
      (processLaws fetch base_url l).active_count := by
  intro l
  induction l with
  | nil => rfl
  | cons e rest ih =>
    simp [processLaws, RunResult.append, List.count_append,
      stepEntry_slept_count, ih]

/-- The accepted count is bounded by the number of entries scanned,
variant A. -/
lemma processLaws_active_le_length (fetch : String → Except FetchErr DetailPayload)
    (base_url : String) : ∀ l : List CatalogItem,
    (processLaws fetch base_url l).active_count ≤ l.length := by
  intro l
  induction l with
  | nil => exact Nat.le_refl 0
  | cons e rest ih =>
    have h1 := stepEntry_active_le_one fetch base_url e
    simp only [processLaws, RunResult.append, List.length_cons]
    omega

/-! ## Claims about the ingestion drivers -/

/-- C1 amended: in the filtering driver (variant A), every pair recorded
as written during a run has a revision info outside the rejection set and
an amendment kind other than "8": no inactive record is ever persisted by
this driver. -/
theorem C1_written_only_active :
    ∀ (fetch : String → Except FetchErr DetailPayload) (base_url : String)
      (entries : List CatalogItem) (limit : Option Int) (pr : String × DetailPayload),
      pr ∈ (runMain fetch base_url entries limit).written →
      isInactive (revInfo pr.2) = false := by
  intro fetch base_url entries limit pr h
  unfold runMain at h
  generalize iter_laws limit entries 0 = l at h
  induction l with
  | nil => simp [processLaws] at h
  | cons e rest ih =>
    simp only [processLaws, RunResult.append, List.mem_append] at h
    rcases h with h | h
    · exact stepEntry_written_passes fetch base_url e pr h
    · exact ih h

/-- Witness for C1: a concrete run of variant A that persists one active
record, to which the invariant applies. -/
theorem C1_witness :
    ("NumG_NameG.json", activePayload) ∈ (runMain fetchCX "b" [entryG] none).written ∧
      isInactive (revInfo activePayload) = false :=
  ⟨by decide, C1_written_only_active fetchCX "b" [entryG] none
    ("NumG_NameG.json", activePayload) (by decide)⟩

/-- C1 counterexample: the second driver of the repository (variant B,
japan-law-tax-json-download) persists a record whose repeal_status Repeal
lies in the rejection set: it applies no validity filter at all, so the
claim is false of that ingestion driver. -/
theorem C1_counterexample :
    (runMainV2 fetchCX "b" [entryR] none).written =
        [("NumR_NameR.json", repealedPayload)] ∧
      repealStatus (revInfo repealedPayload) ∈ rejectStatuses := by
  refine ⟨by decide, ?_⟩
  decide

/-- C7 counterexample: with a cap of 1 over a catalog whose first entry is
rejected by the filter and whose second entry is admissible, the driver
stops with zero accepted items, although the accepted count never reached
the cap; the same admissible entry alone is accepted under the same cap.
The cap therefore bounds scanned entries, not accepted ones. -/
theorem C7_counterexample :
    (runMain fetchCX "b" [entryR, entryG] (some 1)).active_count = 0 ∧
      (runMain fetchCX "b" [entryG] (some 1)).active_count = 1 := by
  refine ⟨by decide, by decide⟩

/-- C7 amended: the item cap bounds the number of catalog entries scanned,
not the number accepted; the accepted count never exceeds the number of
scanned entries. In the concrete all-admissible scenario (cap 2, five
admissible entries) exactly two files are persisted and the accepted count
is 2, as the claim states for that scenario. -/
theorem C7_cap_bounds_scanned :
    (runMain fetchActive "b" scenarioD (some 2)).active_count = 2 ∧
      (runMain fetchActive "b" scenarioD (some 2)).written.length = 2 ∧
      ∀ (fetch : String → Except FetchErr DetailPayload) (base_url : String)
        (entries : List CatalogItem) (limit : Option Int),
        (runMain fetch base_url entries limit).active_count ≤
          (iter_laws limit entries 0).length := by
  refine ⟨by decide, by decide, ?_⟩
  intro fetch base_url entries limit
  exact processLaws_active_le_length fetch base_url (iter_laws limit entries 0)

/-- C8 counterexample: a run of variant A over a rejected entry followed
by an admissible one produces the trace rejected, saved, slept: no sleep
event separates the rejected first entry from the start of the second
entry, so the driver does not wait the rate-limit delay after a rejected
item. The skip and failure paths of the loop reach continue before the
sleep line in the same way. -/
theorem C8_counterexample :
    (runMain fetchCX "b" [entryR, entryG] none).trace =
      [Ev.rejected, Ev.saved "NumG_NameG.json", Ev.slept] := by
  decide

/-- C8 amended: the driver sleeps exactly once per persisted record;
entries that are skipped, rejected or failed proceed to the next entry
with no delay, so sleep events equal the accepted count on every run. -/
theorem C8_sleep_only_after_save :
    ∀ (fetch : String → Except FetchErr DetailPayload) (base_url : String)
      (entries : List CatalogItem) (limit : Option Int),
      (runMain fetch base_url entries limit).trace.count Ev.slept =
        (runMain fetch base_url entries limit).active_count := by
  intro fetch base_url entries limit
  exact processLaws_slept_eq_active fetch base_url (iter_laws limit entries 0)

/-- C10: an entry with no truthy identifier under either naming convention
is skipped by both drivers: its iteration emits only the skip event,
requests no detail URL, writes nothing, accepts nothing, and the rest of
the catalog is processed unchanged. -/
theorem C10_no_id_skips :
    ∀ (fetch : String → Except FetchErr DetailPayload) (base_url : String)
      (e : CatalogItem) (rest : List CatalogItem),
      truthyOpt (extract_law_info e).1 = false →
      processLaws fetch base_url (e :: rest) =
        ⟨Ev.skipNoId :: (processLaws fetch base_url rest).trace,
          (processLaws fetch base_url rest).written,
          (processLaws fetch base_url rest).active_count,
          (processLaws fetch base_url rest).fetched⟩ ∧
      processLawsV2 fetch base_url (e :: rest) =
        ⟨Ev.skipNoId :: (processLawsV2 fetch base_url rest).trace,
          (processLawsV2 fetch base_url rest).written,
          (processLawsV2 fetch base_url rest).active_count,
          (processLawsV2 fetch base_url rest).fetched⟩ := by
  intro fetch base_url e rest h
  constructor
  · simp [processLaws, stepEntry, h, RunResult.append]
  · simp [processLawsV2, stepEntryV2, h, RunResult.append]

/-- Witness for C10: the entry with absent law_id and empty lawId is
skipped by both drivers, with an empty request log and no write. -/
theorem C10_witness :
    truthyOpt (extract_law_info entryNoId).1 = false ∧
      processLaws fetchCX "b" [entryNoId] = ⟨[Ev.skipNoId], [], 0, []⟩ ∧
      processLawsV2 fetchCX "b" [entryNoId] = ⟨[Ev.skipNoId], [], 0, []⟩ := by
  refine ⟨by decide, ?_, ?_⟩
  · have h := (C10_no_id_skips fetchCX "b" entryNoId [] (by decide)).1
    rw [h]
    decide
  · have h := (C10_no_id_skips fetchCX "b" entryNoId [] (by decide)).2
    rw [h]
    decide

/-! ## Lemmas about sanitize_filename -/

/-- A head of a list is a member. -/
lemma memOfHeadEq {α : Type} {l : List α} {c : α} (h : l.head? = some c) : c ∈ l := by
  cases l with
  | nil => simp at h
  | cons a t =>
    simp only [List.head?_cons, Option.some.injEq] at h
    subst h
    exact List.mem_cons_self a t

/-- A last element of a list is a member. -/
lemma memOfGetLastEq {α : Type} {l : List α} {c : α} (h : l.getLast? = some c) : c ∈ l := by
  have h2 : l.reverse.head? = some c := by
    rw [List.head?_reverse]
    exact h
  have h3 := memOfHeadEq h2
  simpa using h3

/-- dropWhile is the identity when the head does not satisfy the
predicate. -/
lemma dropWhileEqSelfOfHead (p : Char → Bool) (l : List Char)
    (h : ∀ c, l.head? = some c → p c = false) : l.dropWhile p = l := by
  cases l with
  | nil => rfl
  | cons a t =>
    have ha := h a rfl
    rw [List.dropWhile_cons_of_neg]
    simp [ha]

/-- The head of a dropWhile result does not satisfy the predicate. -/
lemma headDropWhileFalse (p : Char → Bool) (l : List Char) :
    ∀ c, (l.dropWhile p).head? = some c → p c = false := by
  intro c h
  have h2 := List.head?_dropWhile_not p l
  rw [h] at h2
  exact h2

/-- dropWhile keeps the last element when its result is nonempty. -/
lemma getLastDropWhile (p : Char → Bool) : ∀ l : List Char,
    l.dropWhile p ≠ [] → (l.dropWhile p).getLast? = l.getLast? := by
  intro l
  induction l with
  | nil => intro h; simp [List.dropWhile] at h
  | cons a t ih =>
    intro h
    by_cases hp : p a
    · rw [List.dropWhile_cons_of_pos hp] at h ⊢
      have ht : t ≠ [] := by
        rintro rfl
        simp [List.dropWhile] at h
      rw [ih h]
      cases t with
      | nil => exact absurd rfl ht
      | cons b t2 => rw [List.getLast?_cons_cons]
    · rw [List.dropWhile_cons_of_neg hp]

/-- Members of pyStrip are members of the original list. -/
lemma memPyStrip (p : Char → Bool) (l : List Char) (c : Char)
    (h : c ∈ pyStrip p l) : c ∈ l := by
  unfold pyStrip at h
  rw [List.mem_reverse] at h
  have h2 := List.dropWhile_subset p h
  rw [List.mem_reverse] at h2
  exact List.dropWhile_subset p h2

/-- The head of a pyStrip result does not satisfy the predicate. -/
lemma headPyStripFalse (p : Char → Bool) (l : List Char) :
    ∀ c, (pyStrip p l).head? = some c → p c = false := by
  intro c h
  unfold pyStrip at h
  rw [List.head?_reverse] at h
  by_cases hnil : (l.dropWhile p).reverse.dropWhile p = []
  · rw [hnil] at h
    simp at h
  · rw [getLastDropWhile p _ hnil, List.getLast?_reverse] at h
    exact headDropWhileFalse p l c h

/-- The last element of a pyStrip result does not satisfy the
predicate. -/
lemma getLastPyStripFalse (p : Char → Bool) (l : List Char) :
    ∀ c, (pyStrip p l).getLast? = some c → p c = false := by
  intro c h
  unfold pyStrip at h
  rw [List.getLast?_reverse] at h
  exact headDropWhileFalse p (l.dropWhile p).reverse c h

/-- pyStrip is the identity when neither end satisfies the predicate. -/
lemma pyStripEqSelf (p : Char → Bool) (l : List Char)
    (h1 : ∀ c, l.head? = some c → p c = false)
    (h2 : ∀ c, l.getLast? = some c → p c = false) : pyStrip p l = l := by
  unfold pyStrip
  rw [dropWhileEqSelfOfHead p l h1]
  rw [dropWhileEqSelfOfHead p l.reverse]
  · exact List.reverse_reverse l
  · intro c hc
    rw [List.head?_reverse] at hc
    exact h2 c hc

/-- pyStrip is idempotent. -/
lemma pyStripIdem (p : Char → Bool) (l : List Char) :
    pyStrip p (pyStrip p l) = pyStrip p l :=
  pyStripEqSelf p (pyStrip p l) (headPyStripFalse p l) (getLastPyStripFalse p l)

/-- squashFrom is the identity when no element satisfies the predicate. -/
lemma squashFromEqSelf (p : Char → Bool) : ∀ (l : List Char) (b : Bool),
    (∀ c ∈ l, p c = false) → squashFrom p b l = l := by
  intro l
  induction l with
  | nil => intro b _; rfl
  | cons a t ih =>
    intro b h
    have ha := h a (List.mem_cons_self a t)
    simp only [squashFrom, ha, Bool.false_eq_true, if_false]
    rw [ih false (fun c hc => h c (List.mem_cons_of_mem a hc))]

/-- squashRuns is the identity when no element satisfies the predicate. -/
lemma squashRunsEqSelf (p : Char → Bool) (l : List Char)
    (h : ∀ c ∈ l, p c = false) : squashRuns p l = l :=
  squashFromEqSelf p l false h

/-- Every member of a squashFrom result is an underscore or an original
member that does not satisfy the predicate. -/
lemma memSquashFrom (p : Char → Bool) : ∀ (l : List Char) (b : Bool) (c : Char),
    c ∈ squashFrom p b l → c = '_' ∨ (c ∈ l ∧ p c = false) := by
  intro l
  induction l with
  | nil => intro b c h; simp [squashFrom] at h
  | cons a t ih =>
    intro b c h
    simp only [squashFrom] at h
    by_cases hp : p a
    · rw [if_pos hp] at h
      cases b with
      | true =>
        rcases ih true c h with h2 | ⟨h2, h3⟩
        · exact Or.inl h2
        · exact Or.inr ⟨List.mem_cons_of_mem a h2, h3⟩
      | false =>
        rcases List.mem_cons.mp h with h2 | h2
        · exact Or.inl h2
        · rcases ih true c h2 with h3 | ⟨h3, h4⟩
          · exact Or.inl h3
          · exact Or.inr ⟨List.mem_cons_of_mem a h3, h4⟩
    · rw [if_neg hp] at h
      rcases List.mem_cons.mp h with h2 | h2
      · subst h2
        exact Or.inr ⟨List.mem_cons_self c t, by simpa using hp⟩
      · rcases ih false c h2 with h3 | ⟨h3, h4⟩
        · exact Or.inl h3
        · exact Or.inr ⟨List.mem_cons_of_mem a h3, h4⟩

/-- An allowed character is not whitespace. -/
lemma allowedNotSpace (c : Char) (h : isAllowedChar c = true) :
    isSpaceChar c = false := by
  cases hs : isSpaceChar c
  · rfl
  · exfalso
    simp only [isSpaceChar, Bool.or_eq_true, beq_iff_eq] at hs
    rcases hs with ((((rfl | rfl) | rfl) | rfl) | rfl) | rfl <;>
      exact absurd h (by decide)

/-- Every member of a sanitized list is allowed and not whitespace. -/
lemma memSanitizeList (l : List Char) (c : Char) (h : c ∈ sanitizeList l) :
    isAllowedChar c = true ∧ isSpaceChar c = false := by
  unfold sanitizeList at h
  have h1 := memPyStrip _ _ _ h
  rcases memSquashFrom notAllowedChar _ _ _ h1 with rfl | ⟨h2, hna⟩
  · exact ⟨by decide, by decide⟩
  · have hall : isAllowedChar c = true := by
      simpa [notAllowedChar] using hna
    exact ⟨hall, allowedNotSpace c hall⟩

/-- sanitizeList is idempotent: its output has no whitespace, only allowed
characters, and no underscore at either end, so every stage of a second
pass is the identity. -/
lemma sanitizeListIdem (l : List Char) :
    sanitizeList (sanitizeList l) = sanitizeList l := by
  have hmem := memSanitizeList l
  have hspace : ∀ c ∈ sanitizeList l, isSpaceChar c = false :=
    fun c hc => (hmem c hc).2
  have hallow : ∀ c ∈ sanitizeList l, notAllowedChar c = false := by
    intro c hc
    simp [notAllowedChar, (hmem c hc).1]
  show pyStrip (fun c => c == '_')
      (squashRuns notAllowedChar (squashRuns isSpaceChar
        (pyStrip isSpaceChar (sanitizeList l)))) = sanitizeList l
  rw [pyStripEqSelf isSpaceChar (sanitizeList l)
    (fun c hc => hspace c (memOfHeadEq hc))
    (fun c hc => hspace c (memOfGetLastEq hc))]
  rw [squashRunsEqSelf isSpaceChar (sanitizeList l) hspace]
  rw [squashRunsEqSelf notAllowedChar (sanitizeList l) hallow]
  exact pyStripIdem (fun c => c == '_') _

/-! ## Claim about sanitize_filename -/

/-- C9: sanitize_filename is idempotent on every string, and whenever the
four sanitation stages leave the empty character list, the function
returns the literal token unknown. -/
theorem C9_sanitize_idempotent :
    (∀ s : String, sanitize_filename (sanitize_filename s) = sanitize_filename s) ∧
    (∀ s : String, sanitizeList s.data = [] → sanitize_filename s = "unknown") := by
  constructor
  · intro s
    by_cases hr : (sanitizeList s.data).isEmpty
    · have h1 : sanitize_filename s = "unknown" := by
        simp [sanitize_filename, hr]
      rw [h1]
      decide
    · have h1 : sanitize_filename s = String.mk (sanitizeList s.data) := by
        simp [sanitize_filename, hr]
      rw [h1]
      have hdata : (String.mk (sanitizeList s.data)).data = sanitizeList s.data := rfl
      have h2 : sanitizeList (String.mk (sanitizeList s.data)).data =
          sanitizeList s.data := by
        rw [hdata]
        exact sanitizeListIdem s.data
      simp [sanitize_filename, hdata, sanitizeListIdem s.data, hr]
  · intro s h
    simp [sanitize_filename, h]

/-- Witness for C9: a concrete idempotence instance, and a string of
disallowed characters that sanitizes to the empty list and yields
unknown. -/
theorem C9_witness :
    sanitize_filename (sanitize_filename "a b!") = sanitize_filename "a b!" ∧
      sanitizeList ("!?").data = [] ∧ sanitize_filename "!?" = "unknown" := by
  refine ⟨C9_sanitize_idempotent.1 "a b!", by decide, ?_⟩
  exact C9_sanitize_idempotent.2 "!?" (by decide)
